import Mathlib

/-
Verification of the b2be GitHub OAuth route handlers.

Source embedded here:
  * `callbackGET`  — src/frontend/moderator-dashboard-ui/app/api/github/callback/route.ts
  * `authorizeGET` — src/unnamed/part_000 (the authorize-redirect handler)

Modelling conventions:
  * JSON bodies of the four outbound fetches arrive already parsed as `JSValue`
    (a parse failure of a well-`ok` body is outside the model); an `ok : Bool`
    flag models `Response.ok`.
  * JavaScript truthiness is `jsTruthy`; property access is `jsGetE`, which
    throws (returns `.error ()`) on `null`/`undefined` receivers and otherwise
    yields the field or `undefined`, as in JS.
  * `process.env` variables are `Option String` (`none` = unset); the
    non-null assertion `!` on an unset variable stringifies to "undefined"
    inside `URLSearchParams`, modelled by `envBang`.
  * `NextResponse.redirect` uses its default status 307; URLs built with
    `new URL(path, request.url)` are modelled as `origin ++ path`, and the
    percent-encoding performed by `URL.searchParams.set` is elided (no claim
    depends on it).
  * Each handler returns the list of outbound HTTP requests it actually
    issued together with its HTTP response.
-/

namespace B2BE

/-- A parsed JavaScript/JSON value, including `undefined`. -/
inductive JSValue where
  | undefined
  | null
  | bool (b : Bool)
  | num (n : Int)
  | str (s : String)
  | arr (elems : List JSValue)
  | obj (fields : List (String × JSValue))

/-- JavaScript truthiness of a value (NaN and -0 are not modelled; `num`
is an integer). -/
def jsTruthy : JSValue → Bool
  | .undefined => false
  | .null => false
  | .bool b => b
  | .num n => n != 0
  | .str s => s != ""
  | .arr _ => true
  | .obj _ => true

/-- JavaScript property access `v[k]`: throws a TypeError on `null` or
`undefined`, returns the field of an object (or `undefined` when absent),
and `undefined` on every other receiver (none of the keys used by the
source name a built-in property of primitives or arrays). -/
def jsGetE : JSValue → String → Except Unit JSValue
  | .undefined, _ => .error ()
  | .null, _ => .error ()
  | .obj fields, k => .ok (((fields.find? (fun p => p.1 == k)).map Prod.snd).getD .undefined)
  | _, _ => .ok .undefined

/-- Falsiness of a `string | null | undefined` JS value (query parameter or
environment variable): absent or the empty string. -/
def jsFalsyOpt : Option String → Bool
  | none => true
  | some s => s == ""

/-- `String(process.env.X!)` when `X` may be unset: an unset variable
stringifies to "undefined". -/
def envBang (o : Option String) : String := o.getD "undefined"

/-- `a || b` on a `string | null` left operand. -/
def orFalsy (a : Option String) (b : String) : String :=
  match a with
  | some s => if s == "" then b else s
  | none => b

/-- Body of an outbound fetch. -/
inductive RequestBody where
  | none
  | form (params : List (String × String))
  | json (fields : List (String × JSValue))

/-- An outbound HTTP request issued by a handler. -/
structure OutboundRequest where
  method : String
  url : String
  body : RequestBody

/-- The cookie set by `response.cookies.set`. -/
structure Cookie where
  name : String
  value : JSValue
  httpOnly : Bool
  secure : Bool
  sameSite : String
  path : String
  maxAge : Nat

/-- The handler's HTTP response: a redirect (possibly carrying a
Set-Cookie) or a JSON body with a status. -/
inductive HandlerResponse where
  | redirect (status : Nat) (url : String) (cookie : Option Cookie)
  | json (status : Nat) (body : List (String × String))

/-- An external response to one outbound fetch: the `ok` flag and the
already-parsed JSON body. -/
structure FetchResponse where
  ok : Bool
  body : JSValue

/-- The responses the outside world would give to the callback handler's
four outbound fetches, in program order. -/
structure World where
  tokenResponse : FetchResponse
  userResponse : FetchResponse
  emailsResponse : FetchResponse
  authResponse : FetchResponse

/-- The environment variables read by the callback handler. -/
structure CallbackEnv where
  githubClientId : Option String
  githubClientSecret : Option String
  nextPublicApiUrl : Option String
  nodeEnv : String

/-- The incoming callback request: its origin and the `code` and `state`
query parameters (`none` = absent). -/
structure CallbackRequest where
  origin : String
  code : Option String
  state : Option String

/-- The token-exchange request (route.ts lines 16-28). -/
def tokenRequest (env : CallbackEnv) (req : CallbackRequest) : OutboundRequest :=
  { method := "POST"
    url := "https://github.com/login/oauth/access_token"
    body := .form
      [("client_id", envBang env.githubClientId),
       ("client_secret", envBang env.githubClientSecret),
       ("code", (req.code).getD ""),
       ("redirect_uri", req.origin ++ "/api/github/callback")] }

/-- The profile fetch (route.ts lines 37-41). -/
def userRequest : OutboundRequest :=
  { method := "GET", url := "https://api.github.com/user", body := .none }

/-- The email-list fetch (route.ts lines 52-56). -/
def emailsRequest : OutboundRequest :=
  { method := "GET", url := "https://api.github.com/user/emails", body := .none }

/-- `process.env.NEXT_PUBLIC_API_URL || 'http://localhost:8000'` (route.ts line 70). -/
def backendUrl (env : CallbackEnv) : String :=
  orFalsy env.nextPublicApiUrl "http://localhost:8000"

/-- The backend-handoff request (route.ts lines 71-82). -/
def authRequest (env : CallbackEnv) (accessToken email githubId username : JSValue) :
    OutboundRequest :=
  { method := "POST"
    url := backendUrl env ++ "/api/auth/github-oauth"
    body := .json
      [("access_token", accessToken), ("email", email),
       ("github_id", githubId), ("username", username)] }

/-- The uniform error redirect target of the callback handler. -/
def failUrl (req : CallbackRequest) : String :=
  req.origin ++ "/login?error=github_oauth_failed"

/-- The uniform error response of the callback handler: a redirect to the
login page with the generic error marker and no cookie. -/
def failResponse (req : CallbackRequest) : HandlerResponse :=
  .redirect 307 (failUrl req) none

/-- `emails.find((e) => e.primary)` (route.ts line 60): first entry whose
`primary` field is truthy; accessing `primary` on a `null`/`undefined`
element throws. -/
def findPrimary : List JSValue → Except Unit (Option JSValue)
  | [] => .ok none
  | e :: rest =>
    match jsGetE e "primary" with
    | .error u => .error u
    | .ok p => if jsTruthy p then .ok (some e) else findPrimary rest

/-- Email resolution (route.ts lines 49-62) given the profile's `email`
field and the email-list response. When the profile email is falsy the
list is fetched; a non-`ok` list response is skipped (the email stays as
it was); calling `.find` on a non-array body throws; `primaryEmail?.email`
is `undefined` when no entry matched. -/
def resolveEmailStep (email0 : JSValue) (emailsResp : FetchResponse) : Except Unit JSValue :=
  if jsTruthy email0 then .ok email0
  else if emailsResp.ok then
    match emailsResp.body with
    | .arr emails =>
      match findPrimary emails with
      | .error u => .error u
      | .ok (some primaryEmail) => jsGetE primaryEmail "email"
      | .ok none => .ok .undefined
    | _ => .error ()
  else .ok email0

/-- The callback handler `GET` (route.ts lines 3-108), returning the list
of outbound requests it issued and its response. Every `throw` inside the
`try` block lands in the catch-all, which produces `failResponse`. -/
def callbackGET (env : CallbackEnv) (req : CallbackRequest) (w : World) :
    List OutboundRequest × HandlerResponse :=
  if jsFalsyOpt req.code then
    ([], failResponse req)
  else
    let tReq := tokenRequest env req
    if !w.tokenResponse.ok then ([tReq], failResponse req)
    else
      match jsGetE w.tokenResponse.body "access_token" with
      | .error _ => ([tReq], failResponse req)
      | .ok accessToken =>
        if !jsTruthy accessToken then ([tReq], failResponse req)
        else
          if !w.userResponse.ok then ([tReq, userRequest], failResponse req)
          else
            match jsGetE w.userResponse.body "email" with
            | .error _ => ([tReq, userRequest], failResponse req)
            | .ok email0 =>
              let trace := [tReq, userRequest] ++
                (if jsTruthy email0 then [] else [emailsRequest])
              match resolveEmailStep email0 w.emailsResponse with
              | .error _ => (trace, failResponse req)
              | .ok email =>
                if !jsTruthy email then (trace, failResponse req)
                else
                  match jsGetE w.userResponse.body "id",
                        jsGetE w.userResponse.body "login" with
                  | .ok githubId, .ok username =>
                    let aReq := authRequest env accessToken email githubId username
                    if !w.authResponse.ok then (trace ++ [aReq], failResponse req)
                    else
                      match jsGetE w.authResponse.body "access_token" with
                      | .error _ => (trace ++ [aReq], failResponse req)
                      | .ok sessionToken =>
                        (trace ++ [aReq],
                          .redirect 307 (req.origin ++ "/moderator")
                            (some { name := "auth_token"
                                    value := sessionToken
                                    httpOnly := true
                                    secure := env.nodeEnv == "production"
                                    sameSite := "lax"
                                    path := "/"
                                    maxAge := 60 * 60 * 24 * 7 }))
                  | _, _ => (trace, failResponse req)

/-- The incoming authorize request: its `Origin` and `Referer` headers. -/
structure AuthorizeRequest where
  originHeader : Option String
  refererHeader : Option String

/-- The provider authorization URL built by the authorize handler
(part_000 lines 18-22); percent-encoding elided. -/
def authorizeURL (clientId callbackUrl st : String) : String :=
  "https://github.com/login/oauth/authorize?client_id=" ++ clientId ++
    "&redirect_uri=" ++ callbackUrl ++ "&scope=user:email&state=" ++ st

/-- The authorize handler `GET` (part_000 lines 3-25). The randomly
generated state string is a parameter (the only nondeterminism). -/
def authorizeGET (clientId : Option String) (req : AuthorizeRequest) (st : String) :
    HandlerResponse :=
  if jsFalsyOpt clientId then
    .json 500 [("error", "GITHUB_CLIENT_ID is not configured")]
  else
    let origin := orFalsy req.originHeader (orFalsy req.refererHeader "http://localhost:3000")
    .redirect 307 (authorizeURL (clientId.getD "") (origin ++ "/api/github/callback") st) none

/-- The disjunction of every failure condition of steps 1-5 of the
callback flow (token exchange, profile fetch, email resolution, backend
handoff, session establishment), mirroring the checks of route.ts. -/
def flowFails (w : World) : Bool :=
  !w.tokenResponse.ok ||
  (match jsGetE w.tokenResponse.body "access_token" with
   | .error _ => true
   | .ok a => !jsTruthy a) ||
  !w.userResponse.ok ||
  (match jsGetE w.userResponse.body "email" with
   | .error _ => true
   | .ok email0 =>
     match resolveEmailStep email0 w.emailsResponse with
     | .error _ => true
     | .ok email => !jsTruthy email) ||
  !w.authResponse.ok ||
  (match jsGetE w.authResponse.body "access_token" with
   | .error _ => true
   | .ok _ => false)

/-- Property access on a value succeeds for every key as soon as it
succeeds for one key (only `null`/`undefined` receivers throw). -/
lemma jsGetE_ok_any (v : JSValue) (k k' : String) (r : JSValue)
    (h : jsGetE v k = .ok r) : ∃ r', jsGetE v k' = .ok r' := by
  cases v <;> first | exact Except.noConfusion h | exact ⟨_, rfl⟩

/-- C1: whenever the `code` parameter is present but any of the failure
conditions of steps 1-5 holds (token exchange not ok or without a truthy
access token, profile fetch not ok or with an unreadable body, email
resolution throwing or yielding a falsy email, backend handoff not ok, or
session token unreadable), the callback handler redirects to
/login?error=github_oauth_failed and sets no cookie. -/
theorem callback_failure_uniform (env : CallbackEnv) (req : CallbackRequest)
    (w : World) (hcode : jsFalsyOpt req.code = false)
    (hfail : flowFails w = true) :
    (callbackGET env req w).2 = .redirect 307 (failUrl req) none := by
  unfold callbackGET
  rw [hcode]
  simp only [Bool.false_eq_true, if_false]
  repeat' split
  all_goals first
    | rfl
    | (exfalso; simp_all [flowFails])

/-- Witness for C1 at a concrete failing world (token exchange not ok). -/
theorem callback_failure_uniform_witness :
    (callbackGET ⟨some "id", some "sec", none, "development"⟩
        ⟨"http://h", some "c", none⟩
        ⟨⟨false, .null⟩, ⟨true, .null⟩, ⟨true, .null⟩, ⟨true, .null⟩⟩).2 =
      .redirect 307 (failUrl ⟨"http://h", some "c", none⟩) none :=
  callback_failure_uniform _ _ _ (by decide) rfl

/-- C2: on full success the callback handler redirects to /moderator and
sets cookie auth_token=T with HttpOnly, SameSite=Lax, Path=/,
Max-Age=604800, and Secure exactly when NODE_ENV is "production". -/
theorem callback_success_sets_cookie (env : CallbackEnv) (req : CallbackRequest)
    (w : World) (a email0 email : JSValue) (T : String)
    (hcode : jsFalsyOpt req.code = false)
    (h1 : w.tokenResponse.ok = true)
    (h2 : jsGetE w.tokenResponse.body "access_token" = .ok a)
    (ha : jsTruthy a = true)
    (h3 : w.userResponse.ok = true)
    (h4 : jsGetE w.userResponse.body "email" = .ok email0)
    (h5 : resolveEmailStep email0 w.emailsResponse = .ok email)
    (h6 : jsTruthy email = true)
    (h7 : w.authResponse.ok = true)
    (h8 : jsGetE w.authResponse.body "access_token" = .ok (.str T)) :
    (callbackGET env req w).2 =
      .redirect 307 (req.origin ++ "/moderator")
        (some { name := "auth_token", value := .str T, httpOnly := true,
                secure := env.nodeEnv == "production", sameSite := "lax",
                path := "/", maxAge := 604800 }) := by
  obtain ⟨gid, hid⟩ := jsGetE_ok_any _ _ "id" _ h4
  obtain ⟨glogin, hlogin⟩ := jsGetE_ok_any _ _ "login" _ h4
  unfold callbackGET
  rw [hcode]
  simp [h1, h2, ha, h3, h4, h5, h6, h7, h8, hid, hlogin]

/-- Witness for C2 at a concrete successful exchange. -/
theorem callback_success_sets_cookie_witness :
    (callbackGET ⟨some "id", some "sec", none, "production"⟩
        ⟨"http://h", some "c", none⟩
        ⟨⟨true, .obj [("access_token", .str "gt")]⟩,
         ⟨true, .obj [("email", .str "e@x"), ("id", .num 1), ("login", .str "u")]⟩,
         ⟨true, .arr []⟩,
         ⟨true, .obj [("access_token", .str "T")]⟩⟩).2 =
      .redirect 307 ("http://h" ++ "/moderator")
        (some { name := "auth_token", value := .str "T", httpOnly := true,
                secure := ("production" : String) == "production", sameSite := "lax",
                path := "/", maxAge := 604800 }) :=
  callback_success_sets_cookie _ _ _ (.str "gt") (.str "e@x") (.str "e@x") "T"
    (by decide) rfl rfl (by decide) rfl rfl rfl (by decide) rfl rfl

/-- C3: a callback request whose `code` query parameter is absent is
answered with a redirect to /login?error=github_oauth_failed carrying no
cookie, and no outbound call is performed. -/
theorem callback_missing_code (env : CallbackEnv) (origin : String)
    (st : Option String) (w : World) :
    callbackGET env ⟨origin, none, st⟩ w =
      ([], .redirect 307 (origin ++ "/login?error=github_oauth_failed") none) := rfl

/-- C5: for every callback request and every combination of external
responses, the result is a 307 redirect to exactly one of the two targets:
the generic login error URL (with no cookie) or /moderator (with a cookie). -/
theorem callback_two_targets (env : CallbackEnv) (req : CallbackRequest) (w : World) :
    (callbackGET env req w).2 = .redirect 307 (failUrl req) none ∨
    ∃ c, (callbackGET env req w).2 =
      .redirect 307 (req.origin ++ "/moderator") (some c) := by
  unfold callbackGET
  dsimp only
  split
  · exact Or.inl rfl
  · split
    · exact Or.inl rfl
    · split
      · exact Or.inl rfl
      · split
        · exact Or.inl rfl
        · split
          · exact Or.inl rfl
          · split
            · exact Or.inl rfl
            · split
              · exact Or.inl rfl
              · split
                · exact Or.inl rfl
                · split
                  · split
                    · exact Or.inl rfl
                    · split
                      · exact Or.inl rfl
                      · exact Or.inr ⟨_, rfl⟩
                  · exact Or.inl rfl

/-- The predicate of the `emails.find` callback, total on entries whose
`primary` access does not throw. -/
def primaryFlag (e : JSValue) : Bool :=
  match jsGetE e "primary" with
  | .ok r => jsTruthy r
  | .error _ => false

/-- On a list whose entries all admit `primary` access, `findPrimary` is
`List.find?` of `primaryFlag`. -/
lemma findPrimary_eq_find? (xs : List JSValue)
    (h : ∀ x ∈ xs, jsGetE x "primary" ≠ .error ()) :
    findPrimary xs = .ok (xs.find? primaryFlag) := by
  induction xs with
  | nil => rfl
  | cons e rest ih =>
    rcases he : jsGetE e "primary" with u | p
    · cases u
      exact absurd he (h e (List.mem_cons_self e rest))
    · have hpf : primaryFlag e = jsTruthy p := by simp [primaryFlag, he]
      by_cases hp : jsTruthy p = true
      · rw [List.find?_cons_of_pos _ (by rw [hpf]; exact hp)]
        simp [findPrimary, he, hp]
      · rw [List.find?_cons_of_neg _ (by simp [hpf, hp])]
        simp only [findPrimary, he, hp, if_false, Bool.false_eq_true]
        exact ih (fun x hx => h x (List.mem_cons_of_mem e hx))

/-- `List.find?` returns the unique element satisfying the predicate when
exactly one does. -/
lemma find?_of_countP_eq_one {α : Type} (xs : List α) (p : α → Bool) (e : α)
    (hcount : xs.countP p = 1) (hmem : e ∈ xs) (hp : p e = true) :
    xs.find? p = some e := by
  induction xs with
  | nil => cases hmem
  | cons a l ih =>
    by_cases hpa : p a = true
    · rw [List.find?_cons_of_pos _ hpa]
      have hl : l.countP p = 0 := by
        rw [List.countP_cons, if_pos hpa] at hcount; omega
      rcases List.mem_cons.mp hmem with rfl | hm
      · rfl
      · exact absurd hp (List.countP_eq_zero.mp hl e hm)
    · rw [List.find?_cons_of_neg _ (by simpa using hpa)]
      have hcount' : l.countP p = 1 := by
        rw [List.countP_cons, if_neg hpa] at hcount; omega
      rcases List.mem_cons.mp hmem with rfl | hm
      · exact absurd hp hpa
      · exact ih hcount' hm

/-- When no entry's `primary` field is truthy, `findPrimary` either throws
(a `null`/`undefined` entry) or returns no match. -/
lemma findPrimary_no_primary (xs : List JSValue)
    (h : ∀ x ∈ xs, primaryFlag x = false) :
    findPrimary xs = .error () ∨ findPrimary xs = .ok none := by
  induction xs with
  | nil => exact Or.inr rfl
  | cons e rest ih =>
    rcases he : jsGetE e "primary" with u | p
    · cases u
      left
      simp [findPrimary, he]
    · have hp : jsTruthy p = false := by
        have := h e (List.mem_cons_self e rest)
        simpa [primaryFlag, he] using this
      simp only [findPrimary, he, hp, if_false, Bool.false_eq_true]
      exact ih (fun x hx => h x (List.mem_cons_of_mem e hx))

/-- C4: with the profile's email `null`, the email list is fetched; when
it is an array of entries admitting `primary` access of which exactly one
is flagged primary, the resolved email is that entry's address; and when
no entry is flagged primary the handler redirects to the error target. -/
theorem callback_primary_email (env : CallbackEnv) (req : CallbackRequest)
    (w : World) (a : JSValue) (xs : List JSValue)
    (hcode : jsFalsyOpt req.code = false)
    (h1 : w.tokenResponse.ok = true)
    (h2 : jsGetE w.tokenResponse.body "access_token" = .ok a)
    (ha : jsTruthy a = true)
    (h3 : w.userResponse.ok = true)
    (h4 : jsGetE w.userResponse.body "email" = .ok .null)
    (h5 : w.emailsResponse.ok = true)
    (h6 : w.emailsResponse.body = .arr xs) :
    emailsRequest ∈ (callbackGET env req w).1 ∧
    (∀ e ∈ xs, (∀ x ∈ xs, jsGetE x "primary" ≠ .error ()) →
        xs.countP primaryFlag = 1 → primaryFlag e = true →
        resolveEmailStep .null w.emailsResponse = jsGetE e "email") ∧
    ((∀ x ∈ xs, primaryFlag x = false) →
      (callbackGET env req w).2 = .redirect 307 (failUrl req) none) := by
  refine ⟨?_, ?_, ?_⟩
  · unfold callbackGET
    rw [hcode]
    simp only [Bool.false_eq_true, if_false, h1, h2, ha, h3, h4, Bool.not_true,
      Bool.not_false, if_true, show jsTruthy JSValue.null = false from rfl]
    repeat' split
    all_goals simp
  · intro e hmem hwf hcount hflag
    simp only [resolveEmailStep, h5, h6, if_true, Bool.false_eq_true, if_false,
      show jsTruthy JSValue.null = false from rfl]
    rw [findPrimary_eq_find? xs hwf,
      find?_of_countP_eq_one xs primaryFlag e hcount hmem hflag]
  · intro hnone
    have hres : resolveEmailStep .null w.emailsResponse = .error () ∨
        resolveEmailStep .null w.emailsResponse = .ok .undefined := by
      rcases findPrimary_no_primary xs hnone with hfp | hfp <;>
        simp [resolveEmailStep, h5, h6, hfp,
          show jsTruthy JSValue.null = false from rfl]
    unfold callbackGET
    rw [hcode]
    rcases hres with hres | hres <;>
      simp [h1, h2, ha, h3, h4, hres, failResponse,
        show jsTruthy JSValue.null = false from rfl,
        show jsTruthy JSValue.undefined = false from rfl]

/-- Witness for C4: a single primary entry is selected. -/
theorem callback_primary_email_witness :
    resolveEmailStep .null
        ⟨true, .arr [.obj [("email", .str "p@x"), ("primary", .bool true)]]⟩ =
      jsGetE (.obj [("email", .str "p@x"), ("primary", .bool true)]) "email" :=
  ((callback_primary_email ⟨some "i", some "s", none, "development"⟩
      ⟨"http://h", some "c", none⟩
      ⟨⟨true, .obj [("access_token", .str "t")]⟩,
       ⟨true, .obj [("email", .null), ("id", .num 1), ("login", .str "u")]⟩,
       ⟨true, .arr [.obj [("email", .str "p@x"), ("primary", .bool true)]]⟩,
       ⟨true, .null⟩⟩
      (.str "t") [.obj [("email", .str "p@x"), ("primary", .bool true)]]
      (by decide) rfl rfl (by decide) rfl rfl rfl rfl).2.1
    (.obj [("email", .str "p@x"), ("primary", .bool true)])
    (List.mem_singleton.mpr rfl)
    (by
      intro x hx hcontra
      rw [List.mem_singleton] at hx
      subst hx
      exact Except.noConfusion hcontra)
    rfl rfl)

/-- A falsy profile email never influences email resolution beyond its
falsiness: resolution either ignores it entirely or returns it unchanged
(when the email-list response was not ok). -/
lemma resolveEmailStep_falsy (email1 email2 : JSValue) (er : FetchResponse)
    (hf1 : jsTruthy email1 = false) (hf2 : jsTruthy email2 = false) :
    resolveEmailStep email1 er = resolveEmailStep email2 er ∨
    (resolveEmailStep email1 er = .ok email1 ∧
      resolveEmailStep email2 er = .ok email2) := by
  cases heo : er.ok
  · exact Or.inr ⟨by simp [resolveEmailStep, hf1, heo],
      by simp [resolveEmailStep, hf2, heo]⟩
  · exact Or.inl (by simp [resolveEmailStep, hf1, hf2, heo])

/-- Two callback runs differing only in the profile body, both with a
falsy email field and agreeing on `id` and `login`, are observationally
identical. -/
lemma callbackGET_user_body_congr (env : CallbackEnv) (req : CallbackRequest)
    (tok : Bool) (tb : JSValue) (er ar : FetchResponse) (uok : Bool)
    (u1 u2 : JSValue) (email1 email2 : JSValue)
    (he1 : jsGetE u1 "email" = .ok email1)
    (he2 : jsGetE u2 "email" = .ok email2)
    (hf1 : jsTruthy email1 = false) (hf2 : jsTruthy email2 = false)
    (hid : jsGetE u1 "id" = jsGetE u2 "id")
    (hlog : jsGetE u1 "login" = jsGetE u2 "login") :
    callbackGET env req ⟨⟨tok, tb⟩, ⟨uok, u1⟩, er, ar⟩ =
      callbackGET env req ⟨⟨tok, tb⟩, ⟨uok, u2⟩, er, ar⟩ := by
  unfold callbackGET
  cases hc : jsFalsyOpt req.code
  · simp only [hc, Bool.false_eq_true, if_false]
    cases tok
    · rfl
    · simp only [Bool.not_true, Bool.false_eq_true, if_false]
      rcases hat : jsGetE tb "access_token" with u | a
      · rfl
      · simp only
        cases hja : jsTruthy a
        · rfl
        · simp only [Bool.not_true, Bool.false_eq_true, if_false]
          cases uok
          · rfl
          · simp only [Bool.not_true, Bool.false_eq_true, if_false, he1, he2,
              hf1, hf2, if_false]
            rcases resolveEmailStep_falsy email1 email2 er hf1 hf2 with
              heq | ⟨hr1, hr2⟩
            · rw [heq, hid, hlog]
            · simp only [hr1, hr2, hf1, hf2, Bool.not_false, if_true]
  · simp [hc]

/-- C9: the missing-public-email test is falsiness, not null-ness: for any
falsy profile email the email-list lookup is performed, the run is
observationally identical to one whose profile email is `null` (given the
same `id` and `login`), and an empty-string resolved email still fails
with the generic error redirect. -/
theorem callback_email_falsy (env : CallbackEnv) (req : CallbackRequest)
    (w : World) (a email0 : JSValue)
    (hcode : jsFalsyOpt req.code = false)
    (h1 : w.tokenResponse.ok = true)
    (h2 : jsGetE w.tokenResponse.body "access_token" = .ok a)
    (ha : jsTruthy a = true)
    (h3 : w.userResponse.ok = true)
    (h4 : jsGetE w.userResponse.body "email" = .ok email0)
    (h5 : jsTruthy email0 = false) :
    emailsRequest ∈ (callbackGET env req w).1 ∧
    (∀ u2, jsGetE u2 "email" = .ok .null →
        jsGetE u2 "id" = jsGetE w.userResponse.body "id" →
        jsGetE u2 "login" = jsGetE w.userResponse.body "login" →
        callbackGET env req
            ⟨w.tokenResponse, ⟨w.userResponse.ok, u2⟩,
             w.emailsResponse, w.authResponse⟩ =
          callbackGET env req w) ∧
    (resolveEmailStep email0 w.emailsResponse = .ok (.str "") →
      (callbackGET env req w).2 = .redirect 307 (failUrl req) none) := by
  refine ⟨?_, ?_, ?_⟩
  · unfold callbackGET
    rw [hcode]
    simp only [Bool.false_eq_true, if_false, h1, h2, ha, h3, h4, h5,
      Bool.not_true, Bool.not_false, if_true, if_false]
    repeat' split
    all_goals simp
  · intro u2 hnull hidq hloginq
    obtain ⟨⟨tok, tb⟩, ⟨uok, ub⟩, er, ar⟩ := w
    exact callbackGET_user_body_congr env req tok tb er ar uok u2 ub
      JSValue.null email0 hnull h4 rfl h5 hidq hloginq
  · intro hres
    unfold callbackGET
    rw [hcode]
    simp [h1, h2, ha, h3, h4, h5, hres, failResponse,
      show jsTruthy (JSValue.str "") = false from rfl]

/-- Witness for C9: an empty-string profile email triggers the email-list
fetch. -/
theorem callback_email_falsy_witness :
    emailsRequest ∈
      (callbackGET ⟨some "i", some "s", none, "development"⟩
        ⟨"http://h", some "c", none⟩
        ⟨⟨true, .obj [("access_token", .str "t")]⟩,
         ⟨true, .obj [("email", .str ""), ("id", .num 1), ("login", .str "u")]⟩,
         ⟨true, .arr []⟩,
         ⟨true, .null⟩⟩).1 :=
  (callback_email_falsy ⟨some "i", some "s", none, "development"⟩
    ⟨"http://h", some "c", none⟩
    ⟨⟨true, .obj [("access_token", .str "t")]⟩,
     ⟨true, .obj [("email", .str ""), ("id", .num 1), ("login", .str "u")]⟩,
     ⟨true, .arr []⟩,
     ⟨true, .null⟩⟩ (.str "t") (.str "")
    (by decide) rfl rfl (by decide) rfl rfl (by decide)).1

/-- C10: a non-ok email-list response does not abort the flow by itself:
for any unparsed body `b`, the lookup is still issued, the flow fails only
via the missing-email check afterwards, and the outcome is the generic
error redirect with no backend call made. -/
theorem callback_emails_not_ok (env : CallbackEnv) (req : CallbackRequest)
    (w : World) (a email0 b : JSValue)
    (hcode : jsFalsyOpt req.code = false)
    (h1 : w.tokenResponse.ok = true)
    (h2 : jsGetE w.tokenResponse.body "access_token" = .ok a)
    (ha : jsTruthy a = true)
    (h3 : w.userResponse.ok = true)
    (h4 : jsGetE w.userResponse.body "email" = .ok email0)
    (h5 : jsTruthy email0 = false)
    (h6 : w.emailsResponse = ⟨false, b⟩) :
    callbackGET env req w =
      ([tokenRequest env req, userRequest, emailsRequest],
        .redirect 307 (failUrl req) none) := by
  have hres : resolveEmailStep email0 w.emailsResponse = .ok email0 := by
    simp [resolveEmailStep, h5, h6]
  unfold callbackGET
  rw [hcode]
  simp [h1, h2, ha, h3, h4, h5, hres, failResponse]

/-- Witness for C10 at a concrete non-ok email-list response. -/
theorem callback_emails_not_ok_witness :
    callbackGET ⟨some "i", some "s", none, "development"⟩
        ⟨"http://h", some "c", none⟩
        ⟨⟨true, .obj [("access_token", .str "t")]⟩,
         ⟨true, .obj [("email", .null), ("id", .num 1), ("login", .str "u")]⟩,
         ⟨false, .num 5⟩,
         ⟨true, .null⟩⟩ =
      ([tokenRequest ⟨some "i", some "s", none, "development"⟩
          ⟨"http://h", some "c", none⟩,
        userRequest, emailsRequest],
        .redirect 307 (failUrl ⟨"http://h", some "c", none⟩) none) :=
  callback_emails_not_ok _ _ _ (.str "t") .null (.num 5)
    (by decide) rfl rfl (by decide) rfl rfl rfl rfl

/-- C7: once an email is resolved, the backend handoff POSTs a JSON body
with exactly the fields access_token, email, github_id, username (the
provider token, the resolved email, the profile id and login) to
{backend}/api/auth/github-oauth, and a non-ok backend response yields the
generic error redirect. -/
theorem callback_backend_handoff (env : CallbackEnv) (req : CallbackRequest)
    (w : World) (a email0 email gid glogin : JSValue)
    (hcode : jsFalsyOpt req.code = false)
    (h1 : w.tokenResponse.ok = true)
    (h2 : jsGetE w.tokenResponse.body "access_token" = .ok a)
    (ha : jsTruthy a = true)
    (h3 : w.userResponse.ok = true)
    (h4 : jsGetE w.userResponse.body "email" = .ok email0)
    (h5 : resolveEmailStep email0 w.emailsResponse = .ok email)
    (h6 : jsTruthy email = true)
    (hid : jsGetE w.userResponse.body "id" = .ok gid)
    (hlog : jsGetE w.userResponse.body "login" = .ok glogin) :
    authRequest env a email gid glogin ∈ (callbackGET env req w).1 ∧
    (w.authResponse.ok = false →
      (callbackGET env req w).2 = .redirect 307 (failUrl req) none) := by
  unfold callbackGET
  rw [hcode]
  simp only [Bool.false_eq_true, if_false, h1, h2, ha, h3, h4, h5, h6, hid,
    hlog, Bool.not_true, Bool.not_false, if_true]
  constructor
  · split
    · simp
    · split <;> simp
  · intro haok
    rw [haok]
    simp [failResponse]

/-- Witness for C7 at a concrete run whose backend refuses. -/
theorem callback_backend_handoff_witness :
    (callbackGET ⟨some "i", some "s", none, "development"⟩
        ⟨"http://h", some "c", none⟩
        ⟨⟨true, .obj [("access_token", .str "t")]⟩,
         ⟨true, .obj [("email", .str "e@x"), ("id", .num 1), ("login", .str "u")]⟩,
         ⟨true, .arr []⟩,
         ⟨false, .null⟩⟩).2 =
      .redirect 307 (failUrl ⟨"http://h", some "c", none⟩) none :=
  (callback_backend_handoff ⟨some "i", some "s", none, "development"⟩
    ⟨"http://h", some "c", none⟩
    ⟨⟨true, .obj [("access_token", .str "t")]⟩,
     ⟨true, .obj [("email", .str "e@x"), ("id", .num 1), ("login", .str "u")]⟩,
     ⟨true, .arr []⟩,
     ⟨false, .null⟩⟩ (.str "t") (.str "e@x") (.str "e@x")
    (.num 1) (.str "u")
    (by decide) rfl rfl (by decide) rfl rfl rfl (by decide) rfl rfl).2 rfl

/-- C8: the authorize handler answers a missing (or empty) client
identifier with a 500 JSON body carrying an `error` field and no
redirect; with a configured identifier it redirects to the provider
authorization URL. -/
theorem authorize_config_gate (clientId : Option String)
    (req : AuthorizeRequest) (st : String) :
    (jsFalsyOpt clientId = true →
      authorizeGET clientId req st =
        .json 500 [("error", "GITHUB_CLIENT_ID is not configured")]) ∧
    (∀ s, clientId = some s → s ≠ "" →
      authorizeGET clientId req st =
        .redirect 307
          (authorizeURL s
            (orFalsy req.originHeader
              (orFalsy req.refererHeader "http://localhost:3000") ++
                "/api/github/callback") st) none) := by
  constructor
  · intro h
    unfold authorizeGET
    rw [h]
    rfl
  · intro s hs hne
    subst hs
    unfold authorizeGET
    simp [jsFalsyOpt, hne]

/-- Witness for C8: a configured client identifier yields the provider
redirect. -/
theorem authorize_config_gate_witness :
    authorizeGET (some "cid") ⟨none, none⟩ "st" =
      .redirect 307
        (authorizeURL "cid" ("http://localhost:3000" ++ "/api/github/callback")
          "st") none :=
  (authorize_config_gate (some "cid") ⟨none, none⟩ "st").2 "cid" rfl
    (by decide)

/-- C6: the callback handler's observable behaviour does not depend on the
`state` query parameter: two requests identical except for `state`, given
identical external responses, yield identical traces and responses. -/
theorem callback_state_independent (env : CallbackEnv) (origin : String)
    (code : Option String) (s1 s2 : Option String) (w : World) :
    callbackGET env ⟨origin, code, s1⟩ w = callbackGET env ⟨origin, code, s2⟩ w := rfl

end B2BE
